import Mathlib

/-!
# ShellForge enclosure engine — formal model

A shallow embedding of the ShellForge parametric-enclosure pipeline
(`backend/engine/models.py`, `backend/engine/generator.py`,
`backend/engine/bbox_only.py`, `backend/engine/wrapper.py`,
`backend/connectors/profiles.py`).

Millimetre quantities are modelled as exact rationals (`ℚ`).  The external
floating-point trigonometry used by `_rotated_bbox` is injected as function
parameters `cosF sinF`, following the spec's design note that external
capabilities are injected.  The solid-modelling kernel is modelled as the
record of operations the engine requests from it (cut volumes, edge
treatments, exported part keys); the 2D polygon kernel used by wrapper mode
is modelled set-theoretically over `ℝ × ℝ` in the wrapper section below.
-/

namespace ShellForge

/-- Vector3 from models.py: a 3D point/size value. -/
structure Vector3 where
  x : ℚ := 0
  y : ℚ := 0
  z : ℚ := 0
deriving DecidableEq

/-- WallFace from models.py. -/
inductive WallFace where
  | front
  | back
  | left
  | right
  | top
  | bottom
deriving DecidableEq

/-- LidStyle from models.py. -/
inductive LidStyle where
  | snap
  | screws
  | none
deriving DecidableEq

/-- CustomCutoutShape from models.py. -/
inductive CustomCutoutShape where
  | rectangle
  | circle
  | hexagon
  | triangle
deriving DecidableEq

/-- FootprintConfig from models.py (fixed-shape footprint parameters). -/
structure FootprintConfig where
  shape : String := "rectangle"
  notch_w : ℚ := 0
  notch_d : ℚ := 0
  notch_corner : String := "top_right"
  tab_w : ℚ := 0
  tab_d : ℚ := 0
  tab_side : String := "top"
  u_notch_w : ℚ := 0
  u_notch_d : ℚ := 0
  u_open_side : String := "top"
  arm_fraction : ℚ := 2/5
  polygon_sides : Nat := 6
deriving DecidableEq

/-- Component from models.py.  `bbox_min`/`bbox_max` are `Option` because the
dataclass leaves them unset (`None`) until the aggregation step fills them. -/
structure Component where
  name : String
  file_path : String
  position : Vector3 := {}
  rotation : Vector3 := {}
  bbox_min : Option Vector3 := Option.none
  bbox_max : Option Vector3 := Option.none
  is_pcb : Bool := false
  pcb_screw_diameter : ℚ := 3
  ground_z : ℚ := 0
  standoff_positions : List (ℚ × ℚ) := []
deriving DecidableEq

/-- ConnectorCutout from models.py.  `connector_type` is the enum's string
value (the engine only ever consumes `cutout.connector_type.value`). -/
structure ConnectorCutout where
  connector_type : String
  face : WallFace
  offset_x : ℚ := 0
  offset_y : ℚ := 0
  rotation : ℚ := 0
  custom_width : Option ℚ := Option.none
  custom_height : Option ℚ := Option.none
deriving DecidableEq

/-- CustomCutout from models.py. -/
structure CustomCutout where
  shape : CustomCutoutShape
  face : WallFace
  width : ℚ
  height : ℚ
  depth : ℚ
  offset_x : ℚ := 0
  offset_y : ℚ := 0
  rotation : ℚ := 0
deriving DecidableEq

/-- PartConfig from models.py, with the dataclass defaults. -/
structure PartConfig where
  style : String := "classic"
  fillet_radius : ℚ := 3/2
  wall_thickness : ℚ := 5/2
  lid_hole_style : String := "countersunk"
  tray_z : ℚ := 0
  tray_thickness : ℚ := 2
  bracket_hole_diameter : ℚ := 4
  enabled : Bool := true
  edge_style : String := "fillet"
  chamfer_size : ℚ := 3/2
deriving DecidableEq

/-- The default `parts` dict of EnclosureConfig from models.py. -/
def defaultParts : List (String × PartConfig) :=
  [("base", {}), ("lid", {}),
   ("tray", { enabled := false }), ("bracket", { enabled := false })]

/-- EnclosureConfig from models.py, with the dataclass defaults.  The Python
`parts` dict is modelled as an association list. -/
structure EnclosureConfig where
  padding_x : ℚ := 3
  padding_y : ℚ := 3
  padding_z : ℚ := 3
  wall_thickness : ℚ := 5/2
  floor_thickness : ℚ := 5/2
  lid_thickness : ℚ := 5/2
  lid_style : LidStyle := .screws
  screw_diameter : ℚ := 3
  boss_diameter : ℚ := 7
  boss_height : ℚ := 5
  screw_length : ℚ := 12
  lid_hole_style : String := "countersunk"
  snap_depth : ℚ := 3/2
  snap_width : ℚ := 8
  fillet_radius : ℚ := 3/2
  enclosure_style : String := "classic"
  pcb_standoffs_enabled : Bool := true
  footprint : FootprintConfig := {}
  parts : List (String × PartConfig) := defaultParts
  components : List Component := []
  cutouts : List ConnectorCutout := []
  custom_cutouts : List CustomCutout := []
deriving DecidableEq

/-! ## Connector profile catalog (connectors/profiles.py) -/

/-- One entry of CONNECTOR_PROFILES.  `diameter` is present only for the
round profiles, exactly as in the Python dicts. -/
structure ConnProfile where
  width : ℚ
  height : ℚ
  label : String
  is_round : Bool := false
  diameter : Option ℚ := Option.none
deriving DecidableEq

/-- CONNECTOR_PROFILES from profiles.py, verbatim. -/
def CONNECTOR_PROFILES : List (String × ConnProfile) :=
  [("usb_a", { width := 13, height := 13/2, label := "USB Type-A" }),
   ("usb_c", { width := 93/10, height := 19/5, label := "USB Type-C" }),
   ("micro_usb", { width := 8, height := 7/2, label := "Micro USB" }),
   ("mini_usb", { width := 17/2, height := 9/2, label := "Mini USB" }),
   ("hdmi", { width := 16, height := 15/2, label := "HDMI (full)" }),
   ("mini_hdmi", { width := 23/2, height := 11/2, label := "Mini HDMI" }),
   ("jack_3_5", { width := 13/2, height := 13/2, label := "3.5mm Jack (round)",
                  is_round := true, diameter := some (13/2) }),
   ("barrel_jack", { width := 17/2, height := 17/2, label := "Barrel Jack 5.5mm",
                     is_round := true, diameter := some (17/2) }),
   ("rj45", { width := 33/2, height := 27/2, label := "RJ45 (Ethernet)" })]

/-- get_profile from profiles.py.  The Python function raises
`Unknown connector type` on a catalog miss; that exceptional exit is the
`Option.none` value. -/
def get_profile (connector_type : String) : Option ConnProfile :=
  CONNECTOR_PROFILES.lookup connector_type

/-! ## Bounding-box aggregation (generator.py / bbox_only.py) -/

/-- Collects the `bbox_min`/`bbox_max` pairs of a component list; `none` when
some component has no bounding box (the Python code would raise). -/
def collectBboxes : List Component → Option (List (Vector3 × Vector3))
  | [] => some []
  | c :: rest => do
    let lo ← c.bbox_min
    let hi ← c.bbox_max
    let tail ← collectBboxes rest
    pure ((lo, hi) :: tail)

/-- compute_combined_bbox from generator.py: the componentwise min/max of all
per-component bounding boxes; fails (`ValueError`) on an empty list. -/
def compute_combined_bbox (components : List Component) : Option (Vector3 × Vector3) :=
  match components with
  | [] => Option.none
  | c :: rest => do
    let lo ← c.bbox_min
    let hi ← c.bbox_max
    let tail ← collectBboxes rest
    pure (⟨tail.foldl (fun a q => min a q.1.x) lo.x,
           tail.foldl (fun a q => min a q.1.y) lo.y,
           tail.foldl (fun a q => min a q.1.z) lo.z⟩,
          ⟨tail.foldl (fun a q => max a q.2.x) hi.x,
           tail.foldl (fun a q => max a q.2.y) hi.y,
           tail.foldl (fun a q => max a q.2.z) hi.z⟩)

/-! ## Manual-bbox component construction (bbox_only.py) -/

/-- One entry of the `components_bbox` list taken by
`generate_from_manual_bbox`.  Dict keys that the code reads with
`spec.get(key, default)` and whose presence matters are `Option`s
(`ground_z` falls back to the `z` key); the rest carry the `get` default. -/
structure CompSpec where
  name : String
  width : ℚ
  depth : ℚ
  height : ℚ
  x : ℚ := 0
  y : ℚ := 0
  z : ℚ := 0
  ground_z : Option ℚ := Option.none
  rot_x : ℚ := 0
  rot_y : ℚ := 0
  rot_z : ℚ := 0
  is_pcb : Bool := false
  pcb_screw_diameter : ℚ := 3
  standoff_positions : List (ℚ × ℚ) := []
deriving DecidableEq

/-- Minimum of a list of rationals seeded from its first element (the Python
builtin `min` over a nonempty sequence); the `[]` case is unreachable. -/
def listMin : List ℚ → ℚ
  | [] => 0
  | q :: rest => rest.foldl min q

/-- Maximum of a list of rationals seeded from its first element. -/
def listMax : List ℚ → ℚ
  | [] => 0
  | q :: rest => rest.foldl max q

/-- The corner transform of `_rotated_bbox` from bbox_only.py: one local
corner `(x, y, z)` taken through the rotX, rotY, rotZ steps given the
cosines and sines of the three Euler angles. -/
def rotCorner (cx sx cy sy cz sz x y z : ℚ) : ℚ × ℚ × ℚ :=
  let x1 := x
  let y1 := y * cx - z * sx
  let z1 := y * sx + z * cx
  let x2 := x1 * cy + z1 * sy
  let y2 := y1
  let z2 := -x1 * sy + z1 * cy
  let x3 := x2 * cz - y2 * sz
  let y3 := x2 * sz + y2 * cz
  let z3 := z2
  (x3, y3, z3)

/-- _rotated_bbox from bbox_only.py: the AABB of a box after the Three.js
XYZ Euler rotation, returned as engineering (width, depth, height).  The
Python code calls `math.cos`/`math.sin`; those external functions are the
parameters `cosF`/`sinF`. -/
def rotated_bbox (cosF sinF : ℚ → ℚ)
    (width depth height rot_x rot_y rot_z : ℚ) : ℚ × ℚ × ℚ :=
  if rot_x = 0 ∧ rot_y = 0 ∧ rot_z = 0 then (width, depth, height)
  else
    let hw := width / 2
    let hh := height / 2
    let hd := depth / 2
    let cx := cosF rot_x
    let sx := sinF rot_x
    let cy := cosF rot_y
    let sy := sinF rot_y
    let cz := cosF rot_z
    let sz := sinF rot_z
    let corners : List (ℚ × ℚ × ℚ) :=
      [rotCorner cx sx cy sy cz sz (-hw) (-hh) (-hd),
       rotCorner cx sx cy sy cz sz (-hw) (-hh) hd,
       rotCorner cx sx cy sy cz sz (-hw) hh (-hd),
       rotCorner cx sx cy sy cz sz (-hw) hh hd,
       rotCorner cx sx cy sy cz sz hw (-hh) (-hd),
       rotCorner cx sx cy sy cz sz hw (-hh) hd,
       rotCorner cx sx cy sy cz sz hw hh (-hd),
       rotCorner cx sx cy sy cz sz hw hh hd]
    let xs := corners.map (fun c => c.1)
    let ys := corners.map (fun c => c.2.1)
    let zs := corners.map (fun c => c.2.2)
    (listMax xs - listMin xs, listMax zs - listMin zs, listMax ys - listMin ys)

/-- The ground-Z resolution of bbox_only.py:
`gz = spec.get("ground_z", spec.get("z", 0))`. -/
def specGroundZ (s : CompSpec) : ℚ := s.ground_z.getD s.z

/-- The `bbox_min` assigned to a manual-bbox component (bbox_only.py). -/
def specBboxMin (cosF sinF : ℚ → ℚ) (s : CompSpec) : Vector3 :=
  let e := rotated_bbox cosF sinF s.width s.depth s.height s.rot_x s.rot_y s.rot_z
  ⟨s.x - e.1 / 2, s.y - e.2.1 / 2, specGroundZ s⟩

/-- The `bbox_max` assigned to a manual-bbox component (bbox_only.py). -/
def specBboxMax (cosF sinF : ℚ → ℚ) (s : CompSpec) : Vector3 :=
  let e := rotated_bbox cosF sinF s.width s.depth s.height s.rot_x s.rot_y s.rot_z
  ⟨s.x + e.1 / 2, s.y + e.2.1 / 2, specGroundZ s + e.2.2⟩

/-- The Component built from one manual-bbox spec (bbox_only.py lines
107-146): position at `(x, y, gz)`, pre-computed rotated bounding box. -/
def mkComponent (cosF sinF : ℚ → ℚ) (s : CompSpec) : Component :=
  { name := s.name
    file_path := ""
    position := ⟨s.x, s.y, specGroundZ s⟩
    is_pcb := s.is_pcb
    pcb_screw_diameter := s.pcb_screw_diameter
    ground_z := specGroundZ s
    standoff_positions := s.standoff_positions
    bbox_min := some (specBboxMin cosF sinF s)
    bbox_max := some (specBboxMax cosF sinF s) }

/-! ## Per-part config and style resolution (generator.py / bbox_only.py) -/

/-- _get_part: `parts.get(part_name, PartConfig())`. -/
def get_part (cfg : EnclosureConfig) (part_name : String) : PartConfig :=
  (cfg.parts.lookup part_name).getD {}

/-- The base style resolution of step 0 in both generators:
`style = base_part.style if base_part.style else config.enclosure_style`
(Python string truthiness: the part style wins whenever it is nonempty). -/
def resolvedBaseStyle (cfg : EnclosureConfig) : String :=
  let base_part := get_part cfg "base"
  if base_part.style ≠ "" then base_part.style else cfg.enclosure_style

/-- The effective wall thickness of step 0: `minimal` forces 1.8 mm,
otherwise the base part's wall thickness when nonzero (Python float
truthiness), else the global wall thickness. -/
def resolvedWall (cfg : EnclosureConfig) : ℚ :=
  let base_part := get_part cfg "base"
  if resolvedBaseStyle cfg = "minimal" then 9/5
  else if base_part.wall_thickness ≠ 0 then base_part.wall_thickness
  else cfg.wall_thickness

/-- The effective fillet radius of step 0: `minimal` forces 0, `rounded`
forces 3 mm, otherwise the base part's fillet radius. -/
def resolvedFillet (cfg : EnclosureConfig) : ℚ :=
  if resolvedBaseStyle cfg = "minimal" then 0
  else if resolvedBaseStyle cfg = "rounded" then 3
  else (get_part cfg "base").fillet_radius

/-- An edge treatment requested from the solid kernel by _apply_edges. -/
inductive EdgeOp where
  | filletEdges (r : ℚ)
  | chamferEdges (c : ℚ)
deriving DecidableEq

/-- _apply_edges from generator.py: the edge operation requested for a shell
given the part config and the effective fillet radius (`none` when the part
requests no edge treatment; a kernel failure inside the Python try/except
only skips the operation and is outside this model). -/
def apply_edges (part_config : PartConfig) (fillet_r : ℚ) : Option EdgeOp :=
  if part_config.edge_style = "fillet" ∧ 0 < fillet_r then
    some (.filletEdges fillet_r)
  else if part_config.edge_style = "chamfer" ∧ 0 < part_config.chamfer_size then
    some (.chamferEdges part_config.chamfer_size)
  else Option.none

/-! ## Cutout placement (generator.py) -/

/-- The resolved cut depth of a connector cutout
(generator.py line 177: `cut_d = wall_thickness + 2`). -/
def connectorCutDepth (wall_thickness : ℚ) : ℚ := wall_thickness + 2

/-- The resolved cut depth of a custom cutout (generator.py line 266:
`cut_d = cutout.depth if cutout.depth > 0 else wall_thickness + 2`). -/
def customCutDepth (wall_thickness : ℚ) (cutout : CustomCutout) : ℚ :=
  if 0 < cutout.depth then cutout.depth else wall_thickness + 2

/-- A connector cut volume requested from the kernel: profile dimensions,
depth (extruded symmetrically, `both=True`), roundness, and the workplane
offset used for the placement. -/
structure CutSpec where
  cut_w : ℚ
  cut_h : ℚ
  cut_d : ℚ
  is_round : Bool
  radius : ℚ
  pos_x : ℚ
  pos_y : ℚ
  pos_z : ℚ
deriving DecidableEq

/-- _apply_connector_cutout from generator.py, as the cut volume it requests:
`none` when `get_profile` raises (unknown connector type), in which case the
caller's try/except skips the cutout.  All catalog entries carry `width` and
`height`, so the Python fallbacks `cutout.custom_width or 10` on
`profile.get` are dead and the profile values are used directly; round side
cuts read `profile["diameter"]` (present on every round catalog entry). -/
def apply_connector_cutout (cutout : ConnectorCutout) (inner_size : Vector3)
    (wall_thickness : ℚ) (inner_center : Vector3) (outer_h : Option ℚ) :
    Option CutSpec :=
  match get_profile cutout.connector_type with
  | Option.none => Option.none
  | some profile =>
    let cut_w := profile.width
    let cut_h := profile.height
    let cut_d := connectorCutDepth wall_thickness
    let ox := cutout.offset_x
    let oy := cutout.offset_y
    some (match cutout.face with
      | .front =>
        { cut_w := cut_w, cut_h := cut_h, cut_d := cut_d,
          is_round := profile.is_round, radius := profile.diameter.getD 0 / 2,
          pos_x := inner_center.x + ox,
          pos_y := inner_center.y + inner_size.y / 2 + wall_thickness / 2,
          pos_z := inner_center.z + oy }
      | .back =>
        { cut_w := cut_w, cut_h := cut_h, cut_d := cut_d,
          is_round := profile.is_round, radius := profile.diameter.getD 0 / 2,
          pos_x := inner_center.x + ox,
          pos_y := inner_center.y - inner_size.y / 2 - wall_thickness / 2,
          pos_z := inner_center.z + oy }
      | .right =>
        { cut_w := cut_w, cut_h := cut_h, cut_d := cut_d,
          is_round := profile.is_round, radius := profile.diameter.getD 0 / 2,
          pos_x := inner_center.x + inner_size.x / 2 + wall_thickness / 2,
          pos_y := inner_center.y + ox,
          pos_z := inner_center.z + oy }
      | .left =>
        { cut_w := cut_w, cut_h := cut_h, cut_d := cut_d,
          is_round := profile.is_round, radius := profile.diameter.getD 0 / 2,
          pos_x := inner_center.x - inner_size.x / 2 - wall_thickness / 2,
          pos_y := inner_center.y + ox,
          pos_z := inner_center.z + oy }
      | .top =>
        { cut_w := cut_w, cut_h := cut_h, cut_d := cut_d,
          is_round := profile.is_round,
          radius := profile.diameter.getD (min cut_w cut_h) / 2,
          pos_x := inner_center.x + ox,
          pos_y := inner_center.y + oy,
          pos_z := outer_h.getD (inner_center.z + inner_size.z / 2) }
      | .bottom =>
        { cut_w := cut_w, cut_h := cut_h, cut_d := cut_d,
          is_round := profile.is_round,
          radius := profile.diameter.getD (min cut_w cut_h) / 2,
          pos_x := inner_center.x + ox,
          pos_y := inner_center.y + oy,
          pos_z := 0 })

/-- The 2D profile of a custom cutout (`make_profile` in
_apply_custom_cutout). -/
inductive CutProfile where
  | rect (w h : ℚ)
  | circle (r : ℚ)
  | polygon (sides : Nat) (r : ℚ)
deriving DecidableEq

/-- make_profile from _apply_custom_cutout. -/
def makeCustomProfile (shape : CustomCutoutShape) (w h : ℚ) : CutProfile :=
  match shape with
  | .rectangle => .rect w h
  | .circle => .circle (w / 2)
  | .hexagon => .polygon 6 (w / 2)
  | .triangle => .polygon 3 (w / 2)

/-- A custom cut volume requested from the kernel. -/
structure CustomCutApplied where
  profile : CutProfile
  cut_d : ℚ
  pos_x : ℚ
  pos_y : ℚ
  pos_z : ℚ
  rot : ℚ
deriving DecidableEq

/-- _apply_custom_cutout from generator.py, as the cut volume it requests
(a kernel failure in its try/except skips the cut; the placement
computation itself is total). -/
def apply_custom_cutout (cutout : CustomCutout) (inner_size : Vector3)
    (wall_thickness : ℚ) (inner_center : Vector3) (outer_h : Option ℚ) :
    CustomCutApplied :=
  let w := cutout.width
  let h := cutout.height
  let cut_d := customCutDepth wall_thickness cutout
  let profile := makeCustomProfile cutout.shape w h
  let rot := cutout.rotation
  match cutout.face with
  | .front =>
    { profile := profile, cut_d := cut_d, rot := rot,
      pos_x := inner_center.x + cutout.offset_x,
      pos_y := inner_center.y + inner_size.y / 2 + wall_thickness / 2,
      pos_z := inner_center.z + cutout.offset_y }
  | .back =>
    { profile := profile, cut_d := cut_d, rot := rot,
      pos_x := inner_center.x + cutout.offset_x,
      pos_y := inner_center.y - inner_size.y / 2 - wall_thickness / 2,
      pos_z := inner_center.z + cutout.offset_y }
  | .right =>
    { profile := profile, cut_d := cut_d, rot := rot,
      pos_x := inner_center.x + inner_size.x / 2 + wall_thickness / 2,
      pos_y := inner_center.y + cutout.offset_x,
      pos_z := inner_center.z + cutout.offset_y }
  | .left =>
    { profile := profile, cut_d := cut_d, rot := rot,
      pos_x := inner_center.x - inner_size.x / 2 - wall_thickness / 2,
      pos_y := inner_center.y + cutout.offset_x,
      pos_z := inner_center.z + cutout.offset_y }
  | .top =>
    { profile := profile, cut_d := cut_d, rot := rot,
      pos_x := inner_center.x + cutout.offset_x,
      pos_y := inner_center.y + cutout.offset_y,
      pos_z := outer_h.getD (inner_center.z + inner_size.z / 2) }
  | .bottom =>
    { profile := profile, cut_d := cut_d, rot := rot,
      pos_x := inner_center.x + cutout.offset_x,
      pos_y := inner_center.y + cutout.offset_y,
      pos_z := 0 }

/-! ## PCB standoff radii (generator.py / wrapper.py) -/

/-- The standoff boss outer radius used by bounding-box mode
(generator.py line 429: `outer_r = comp.pcb_screw_diameter * 2.5 / 2`). -/
def bboxStandoffOuterR (pcb_screw_diameter : ℚ) : ℚ :=
  pcb_screw_diameter * (5/2) / 2

/-- The standoff drill radius of bounding-box mode (generator.py line 430). -/
def bboxStandoffInnerR (pcb_screw_diameter : ℚ) : ℚ :=
  pcb_screw_diameter / 2

/-- The standoff boss radius used by wrapper mode
(wrapper.py line 129: `boss_r = ... * 1.25`). -/
def wrapperStandoffBossR (pcb_screw_diameter : ℚ) : ℚ :=
  pcb_screw_diameter * (5/4)

/-! ## Lid screw holes (_build_lid_screws in generator.py) -/

/-- Countersunk head pocket depth:
`pocket_depth = min(2.0, lid_t - 0.5)`. -/
def pocketDepth (lid_t : ℚ) : ℚ := min 2 (lid_t - 1/2)

/-- Countersunk shaft depth:
`shaft_depth = lid_t - pocket_depth - 0.3` ("leave 0.3mm floor"). -/
def shaftDepth (lid_t : ℚ) : ℚ := lid_t - pocketDepth lid_t - 3/10

/-- Bottom of the head-pocket cut cylinder: the cylinder has height
`pocket_depth + 1` and is centred at `z = lid_t - pocket_depth / 2`. -/
def pocketCutLo (lid_t : ℚ) : ℚ :=
  (lid_t - pocketDepth lid_t / 2) - (pocketDepth lid_t + 1) / 2

/-- Top of the head-pocket cut cylinder. -/
def pocketCutHi (lid_t : ℚ) : ℚ :=
  (lid_t - pocketDepth lid_t / 2) + (pocketDepth lid_t + 1) / 2

/-- Bottom of the shaft cut cylinder: height `shaft_depth + 1`, centred at
`z = shaft_depth / 2`. -/
def shaftCutLo (lid_t : ℚ) : ℚ :=
  shaftDepth lid_t / 2 - (shaftDepth lid_t + 1) / 2

/-- Top of the shaft cut cylinder. -/
def shaftCutHi (lid_t : ℚ) : ℚ :=
  shaftDepth lid_t / 2 + (shaftDepth lid_t + 1) / 2

/-- The cut volumes requested for one lid screw position. -/
inductive LidHoleCut where
  | throughHole (r cyl_h z_center : ℚ)
  | countersunk (head_r pocket_h pocket_zc shaft_r shaft_h shaft_zc : ℚ)
deriving DecidableEq

/-- The per-position hole treatment of _build_lid_screws: `none` for the
`closed` style (no cut at all), a through hole for the default style or the
countersunk thin-lid fallback, and the pocket+shaft pair otherwise. -/
def lidScrewHole (lid_hole_style : String) (lid_t screw_r : ℚ) :
    Option LidHoleCut :=
  if lid_hole_style = "closed" then Option.none
  else if lid_hole_style = "countersunk" then
    let head_r := screw_r * (9/5)
    let pocket_depth := pocketDepth lid_t
    let shaft_depth := shaftDepth lid_t
    if shaft_depth ≤ 0 then
      some (.throughHole screw_r (lid_t + 1) (lid_t / 2))
    else
      some (.countersunk head_r (pocket_depth + 1) (lid_t - pocket_depth / 2)
        screw_r (shaft_depth + 1) (shaft_depth / 2))
  else some (.throughHole screw_r (lid_t + 1) (lid_t / 2))

/-! ## The manual-bbox generation pipeline (bbox_only.py) -/

/-- The inner/outer dimension summary computed by both generators. -/
structure Dims where
  inner_w : ℚ
  inner_d : ℚ
  inner_h : ℚ
  outer_w : ℚ
  outer_d : ℚ
  outer_h : ℚ
deriving DecidableEq

/-- Everything observable about one `generate_from_manual_bbox` run: the
result-dict keys in insertion order, the resolved style/wall/fillet, the
dimension summary, the edge and cut operations requested from the kernel,
and the final state of the (mutated) config. -/
structure GenResult where
  keys : List String
  style : String
  wall : ℚ
  eff_fillet : ℚ
  dims : Dims
  boss_h : ℚ
  baseEdge : Option EdgeOp
  lidEdge : Option EdgeOp
  lidHoleStyle : String
  lidHole : Option LidHoleCut
  connectorCuts : List CutSpec
  customCuts : List CustomCutApplied
  config : EnclosureConfig
deriving DecidableEq

/-- generate_from_manual_bbox from bbox_only.py.  `cosF`/`sinF` inject the
floating-point trigonometry, `threeMfBase`/`threeMfLid` record whether the
optional 3MF exports succeed (an external filesystem/kernel concern).  The
run fails (`none`) exactly when `compute_combined_bbox` raises; kernel
boolean operations are the out-of-scope collaborator and are recorded, not
executed.  The Python mutation `config.components = components` changes only
the `components` field, so all later field reads are taken from the input
`config`; the mutated object is returned as the `config` field of the
result. -/
def generate_from_manual_bbox (cosF sinF : ℚ → ℚ) (components_bbox : List CompSpec)
    (config : EnclosureConfig) (threeMfBase threeMfLid : Bool) : Option GenResult :=
  let components := components_bbox.map (mkComponent cosF sinF)
  let config2 := { config with components := components }
  let base_part := get_part config "base"
  let lid_part := get_part config "lid"
  let tray_part := get_part config "tray"
  let bracket_part := get_part config "bracket"
  let style := resolvedBaseStyle config
  let wall := resolvedWall config
  let eff_fillet := resolvedFillet config
  match compute_combined_bbox components with
  | Option.none => Option.none
  | some bb =>
    let inner_w := (bb.2.x - bb.1.x) + config.padding_x * 2
    let inner_d := (bb.2.y - bb.1.y) + config.padding_y * 2
    let inner_h := (bb.2.z - bb.1.z) + config.padding_z * 2
    let floor_t := config.floor_thickness
    let lid_t := config.lid_thickness
    let outer_w := inner_w + wall * 2
    let outer_d := inner_d + wall * 2
    let outer_h := inner_h + floor_t
    let inner_size : Vector3 := ⟨inner_w, inner_d, inner_h⟩
    let inner_center : Vector3 := ⟨0, 0, floor_t + inner_h / 2⟩
    let boss_h := max (config.screw_length - lid_t) 3
    let baseEdge := apply_edges base_part eff_fillet
    let connectorCuts := config.cutouts.filterMap
      (fun c => apply_connector_cutout c inner_size wall inner_center (some outer_h))
    let customCuts := config.custom_cutouts.map
      (fun c => apply_custom_cutout c inner_size wall inner_center (some outer_h))
    let lid_style_str := resolvedBaseStyle config
    let lid_fillet :=
      if lid_style_str = "rounded" then 3
      else if lid_style_str = "minimal" then 0
      else lid_part.fillet_radius
    let lid_hole_style :=
      if lid_part.lid_hole_style ≠ "" then lid_part.lid_hole_style
      else config.lid_hole_style
    let lidEdge :=
      if config.lid_style ≠ LidStyle.none then apply_edges lid_part lid_fillet
      else Option.none
    let lidHole :=
      if config.lid_style = LidStyle.screws then
        lidScrewHole lid_hole_style lid_t (config.screw_diameter / 2)
      else Option.none
    let keys := ["base"]
      ++ (if threeMfBase then ["base_3mf"] else [])
      ++ (if config.lid_style ≠ LidStyle.none then
            ["lid"] ++ (if threeMfLid then ["lid_3mf"] else [])
          else [])
      ++ (if tray_part.enabled then ["tray"] else [])
      ++ (if bracket_part.enabled then ["bracket"] else [])
    some { keys := keys, style := style, wall := wall, eff_fillet := eff_fillet,
           dims := ⟨inner_w, inner_d, inner_h, outer_w, outer_d, outer_h⟩,
           boss_h := boss_h, baseEdge := baseEdge, lidEdge := lidEdge,
           lidHoleStyle := lid_hole_style, lidHole := lidHole,
           connectorCuts := connectorCuts, customCuts := customCuts,
           config := config2 }

/-! ## Wrapper-mode footprint (wrapper.py)

Wrapper mode delegates 2D polygon work to an external kernel (shapely):
union of rectangles, outward/inward buffering, convex hull.  Modelled from
the spec (§4.2, §6): regions are subsets of `ℝ × ℝ`, a positive buffer is
the Minkowski dilation by the closed metric ball, a negative buffer is the
erosion by the same ball. -/

/-- Modelled from the spec: the external polygon kernel's outward offset
("buffer") of a plane region by distance `d` — the union of the closed
balls of radius `d` around the region's points. -/
def dilate (s : Set (ℝ × ℝ)) (d : ℝ) : Set (ℝ × ℝ) :=
  ⋃ p ∈ s, Metric.closedBall p d

/-- Modelled from the spec: the external polygon kernel's inward offset
(negative buffer) of a plane region by distance `d` — the points whose
closed `d`-ball stays inside the region. -/
def erode (s : Set (ℝ × ℝ)) (d : ℝ) : Set (ℝ × ℝ) :=
  {q | Metric.closedBall q d ⊆ s}

/-- _component_footprint from wrapper.py: the component's world-space 2D
footprint — a `width × depth` rectangle about the origin, rotated by
`rot_y` degrees about the vertical axis (Modelled from the spec for the
external kernel's rotate primitive), then translated to `(x, y)`. -/
def component_footprint (s : CompSpec) : Set (ℝ × ℝ) :=
  let base : Set (ℝ × ℝ) :=
    Set.Icc (-(s.width : ℝ) / 2) ((s.width : ℝ) / 2) ×ˢ
      Set.Icc (-(s.depth : ℝ) / 2) ((s.depth : ℝ) / 2)
  let rotated : Set (ℝ × ℝ) :=
    if s.rot_y = 0 then base
    else
      {q | ∃ p ∈ base,
        q.1 = p.1 * Real.cos ((s.rot_y : ℝ) * Real.pi / 180)
            - p.2 * Real.sin ((s.rot_y : ℝ) * Real.pi / 180) ∧
        q.2 = p.1 * Real.sin ((s.rot_y : ℝ) * Real.pi / 180)
            + p.2 * Real.cos ((s.rot_y : ℝ) * Real.pi / 180)}
  {q | ∃ p ∈ rotated, q.1 = p.1 + (s.x : ℝ) ∧ q.2 = p.2 + (s.y : ℝ)}

/-- The union of all component footprints (wrapper.py `unary_union`). -/
def unionFootprint (components_spec : List CompSpec) : Set (ℝ × ℝ) :=
  ⋃ s ∈ components_spec, component_footprint s

/-- The wrapper-mode outer footprint (wrapper.py lines 78-113):
union of component footprints; convex hull when the union is disconnected
(`disconnected` records the external kernel's MultiPolygon test); outward
buffer by `max(padding_x, padding_y)` then by `wall_thickness`; and, for a
positive fillet radius, the erode-then-dilate rounding pass. -/
def wrapperOuterPoly (components_spec : List CompSpec) (disconnected : Bool)
    (config : EnclosureConfig) : Set (ℝ × ℝ) :=
  let u := unionFootprint components_spec
  let u2 := if disconnected then convexHull ℝ u else u
  let pad : ℝ := ((max config.padding_x config.padding_y : ℚ) : ℝ)
  let cavity_poly := dilate u2 pad
  let outer_poly := dilate cavity_poly (config.wall_thickness : ℝ)
  if 0 < config.fillet_radius then
    dilate (erode outer_poly (config.fillet_radius : ℝ)) (config.fillet_radius : ℝ)
  else outer_poly

/-! ## Concrete inputs used by the verification -/

/-- A trivial stand-in for the injected trigonometry; never consulted on
unrotated inputs because `_rotated_bbox` short-circuits at zero angles. -/
def zeroFn : ℚ → ℚ := fun _ => 0

/-- A single 10 × 20 × 5 component at the origin. -/
def spec1 : CompSpec := { name := "a", width := 10, depth := 20, height := 5 }

/-- The two components of the repository test
(`tests/test_bbox_generator.py`): an ESP32 dev board and an OLED screen. -/
def testComponents : List CompSpec :=
  [{ name := "ESP32 Dev Board", width := 28, depth := 55, height := 12 },
   { name := "OLED 0.96 inch", width := 27, depth := 27, height := 4, y := -14 }]

/-- The configuration of the repository test: padding (4, 4, 5), wall 2.5,
floor 2.5, lid 2.0, screws lid, fillet 1.5. -/
def testConfig : EnclosureConfig :=
  { padding_x := 4, padding_y := 4, padding_z := 5, wall_thickness := 5/2,
    floor_thickness := 5/2, lid_thickness := 2, lid_style := .screws,
    fillet_radius := 3/2 }

/-- A custom cutout with an explicit 1 mm depth (legal per the schema,
which only demands positive width). -/
def shallowCutout : CustomCutout :=
  { shape := .rectangle, face := .front, width := 10, height := 10, depth := 1 }

/-- A custom cutout with depth 0, requesting the automatic depth. -/
def autoDepthCutout : CustomCutout :=
  { shape := .rectangle, face := .front, width := 10, height := 10, depth := 0 }

/-- A "custom" connector cutout carrying explicit custom dimensions. -/
def customConnCutout : ConnectorCutout :=
  { connector_type := "custom", face := .front,
    custom_width := some 12, custom_height := some 8 }

/-- A configuration whose base part selects the minimal style together with
a chamfer edge style. -/
def minimalChamferConfig : EnclosureConfig :=
  { parts := [("base", { style := "minimal", edge_style := "chamfer" }),
              ("lid", {}), ("tray", { enabled := false }),
              ("bracket", { enabled := false })] }

/-! ## Evaluation helpers for concrete rationals -/

/-- At the repository test's 2 mm lid, the head pocket is 1.5 mm deep. -/
lemma pocketDepth_two : pocketDepth 2 = 3/2 := by
  unfold pocketDepth
  rw [min_def]; norm_num

/-- At a 2 mm lid the shaft depth is 0.2 mm. -/
lemma shaftDepth_two : shaftDepth 2 = 1/5 := by
  unfold shaftDepth
  rw [pocketDepth_two]; norm_num

/-- The countersunk hole cuts requested at lid thickness 2 mm and screw
radius 1.5 mm (the repository test's configuration). -/
lemma lidScrewHole_countersunk_two :
    lidScrewHole "countersunk" 2 (3/2) =
      some (.countersunk (27/10) (5/2) (5/4) (3/2) (6/5) (1/10)) := by
  have h3 : ¬(shaftDepth 2 ≤ 0) := by rw [shaftDepth_two]; norm_num
  simp only [lidScrewHole, if_true]
  rw [if_neg h3, shaftDepth_two, pocketDepth_two]
  norm_num
  exact fun h => absurd h (by decide)

/-! ## Claim C2 — countersunk lid holes -/

/-- C2: the spec claims countersunk lid holes leave at least 0.3 mm of
solid lid between the head pocket and the shaft hole, with a deterministic
through-hole fallback for thin lids.  The code contradicts its own comments:
the shaft depth is always at least 0.2 mm (the fallback guard
`shaft_depth <= 0` is unsatisfiable), the top of the shaft cut cylinder
always sits 0.7 mm above the bottom of the pocket cut cylinder (the cuts
overlap instead of leaving a floor), and at the repository test's lid
thickness of 2 mm the pocket cut alone spans the whole lid height, so the
two cuts always open a passage through the lid. -/
theorem countersunk_lid_hole_breaks_through :
    (∀ lid_t : ℚ, 1/5 ≤ shaftDepth lid_t) ∧
    (∀ lid_t : ℚ, shaftCutHi lid_t - pocketCutLo lid_t = 7/10) ∧
    lidScrewHole "countersunk" 2 (3/2) =
      some (.countersunk (27/10) (5/2) (5/4) (3/2) (6/5) (1/10)) ∧
    Set.Icc (0:ℚ) 2 ⊆
      Set.Icc (pocketCutLo 2) (pocketCutHi 2) ∪
        Set.Icc (shaftCutLo 2) (shaftCutHi 2) := by
  refine ⟨fun t => ?_, fun t => ?_, lidScrewHole_countersunk_two, ?_⟩
  · unfold shaftDepth pocketDepth
    rcases le_total (2:ℚ) (t - 1/2) with h | h
    · rw [min_eq_left h]; linarith
    · rw [min_eq_right h]; linarith
  · simp only [shaftCutHi, pocketCutLo, shaftDepth]; ring
  · intro z hz
    rw [Set.mem_Icc] at hz
    refine Set.mem_union_left _ ?_
    have h1 : pocketCutLo 2 = 0 := by
      unfold pocketCutLo
      rw [pocketDepth_two]; norm_num
    have h2 : pocketCutHi 2 = 5/2 := by
      unfold pocketCutHi
      rw [pocketDepth_two]; norm_num
    rw [Set.mem_Icc, h1, h2]
    exact ⟨hz.1, le_trans hz.2 (by norm_num)⟩

/-! ## Claim C3 — standoff boss radii -/

/-- C3 counterexample: the claim says bounding-box mode uses a boss outer
radius of 2.5 × the PCB screw diameter; at the default diameter 3 mm the
code computes 3.75 mm, not 7.5 mm. -/
theorem standoff_radius_not_2_5_diameter :
    bboxStandoffOuterR 3 = 15/4 ∧ ¬ bboxStandoffOuterR 3 = (5/2) * 3 := by
  unfold bboxStandoffOuterR
  norm_num

/-- C3 amended: both modes use the same boss outer radius of 1.25 × the
configured PCB screw diameter (the bounding-box source merely spells it
`2.5 / 2`); there is no per-mode difference. -/
theorem standoff_radius_both_modes (d : ℚ) :
    bboxStandoffOuterR d = (5/4) * d ∧ wrapperStandoffBossR d = (5/4) * d ∧
    bboxStandoffOuterR d = wrapperStandoffBossR d := by
  refine ⟨?_, ?_, ?_⟩ <;> simp [bboxStandoffOuterR, wrapperStandoffBossR] <;> ring

/-! ## Claim C4 — cutout depth vs wall thickness -/

/-- C4 counterexample: a custom cutout with an explicit 1 mm depth resolves
to a 1 mm cut against a 2.5 mm wall — shallower than the wall, so the
claimed invariant `cut depth ≥ wall thickness` fails. -/
theorem custom_cutout_depth_below_wall :
    customCutDepth (5/2) shallowCutout = 1 ∧
    customCutDepth (5/2) shallowCutout < 5/2 := by
  have h : customCutDepth (5/2) shallowCutout = 1 := by
    unfold customCutDepth
    rw [if_pos (by norm_num [shallowCutout])]
    rfl
  exact ⟨h, by rw [h]; norm_num⟩

/-- C4 amended: a connector cutout always cuts to `wall + 2`, and a custom
cutout without an explicit positive depth does too — both at least the wall
thickness — but a custom cutout with an explicit positive depth uses that
depth unchanged, which may be smaller than the wall thickness. -/
theorem cutout_depth_resolution (wall_thickness : ℚ) (c : CustomCutout) :
    wall_thickness ≤ connectorCutDepth wall_thickness ∧
    (c.depth ≤ 0 → wall_thickness ≤ customCutDepth wall_thickness c) ∧
    (0 < c.depth → customCutDepth wall_thickness c = c.depth) := by
  refine ⟨?_, fun h => ?_, fun h => ?_⟩
  · unfold connectorCutDepth; linarith
  · unfold customCutDepth
    rw [if_neg (not_lt.mpr h)]; linarith
  · unfold customCutDepth
    rw [if_pos h]

/-- C4 amended, witness at wall 2.5 and a depth-0 custom cutout. -/
theorem cutout_depth_resolution_witness :
    (5/2 : ℚ) ≤ connectorCutDepth (5/2) ∧
    (autoDepthCutout.depth ≤ 0 →
      (5/2 : ℚ) ≤ customCutDepth (5/2) autoDepthCutout) ∧
    (0 < autoDepthCutout.depth →
      customCutDepth (5/2) autoDepthCutout = autoDepthCutout.depth) :=
  cutout_depth_resolution (5/2) autoDepthCutout

/-! ## Claim C5 — "custom" connector cutouts -/

/-- C5: the claim (and the data model's own `custom_width`/`custom_height`
fields "for CUSTOM type") say a `custom` connector cutout is applied as a
rectangle of the requested size, but the profile catalog has no "custom"
entry, so `get_profile` raises before the custom dimensions can be read and
the cutout is skipped by the generation loop's exception handler. -/
theorem custom_connector_cutout_skipped :
    get_profile "custom" = Option.none ∧
    apply_connector_cutout customConnCutout ⟨36, 63, 22⟩ (5/2) ⟨0, 0, 27/2⟩
      (some (49/2)) = Option.none :=
  ⟨rfl, rfl⟩

/-! ## Claim C6 — minimal style and edge treatment -/

/-- C6 counterexample: with the base part set to the minimal style and a
chamfer edge style, the wall is forced to 1.8 mm and the fillet to 0, yet
`_apply_edges` still requests a 1.5 mm chamfer — an edge treatment is
applied, contrary to the claim. -/
theorem minimal_style_still_chamfers :
    resolvedBaseStyle minimalChamferConfig = "minimal" ∧
    resolvedWall minimalChamferConfig = 9/5 ∧
    resolvedFillet minimalChamferConfig = 0 ∧
    apply_edges (get_part minimalChamferConfig "base")
        (resolvedFillet minimalChamferConfig)
      = some (.chamferEdges (3/2)) := by
  have hpart : get_part minimalChamferConfig "base" =
      { style := "minimal", edge_style := "chamfer" } := rfl
  refine ⟨rfl, rfl, rfl, ?_⟩
  rw [show resolvedFillet minimalChamferConfig = 0 from rfl, hpart]
  simp only [apply_edges]
  norm_num

/-- C6 amended: a resolved minimal base style forces the wall to 1.8 mm and
the effective fillet radius to 0, so fillet rounding is never requested; but
when the base part's edge style is `chamfer` with a positive chamfer size a
chamfer is still applied, and only otherwise is no edge treatment applied. -/
theorem minimal_style_edges (cfg : EnclosureConfig)
    (hmin : resolvedBaseStyle cfg = "minimal") :
    resolvedWall cfg = 9/5 ∧ resolvedFillet cfg = 0 ∧
    (∀ r : ℚ, apply_edges (get_part cfg "base") (resolvedFillet cfg) ≠
      some (.filletEdges r)) ∧
    (((get_part cfg "base").edge_style = "chamfer" ∧
        0 < (get_part cfg "base").chamfer_size) →
      apply_edges (get_part cfg "base") (resolvedFillet cfg)
        = some (.chamferEdges (get_part cfg "base").chamfer_size)) ∧
    (¬((get_part cfg "base").edge_style = "chamfer" ∧
        0 < (get_part cfg "base").chamfer_size) →
      apply_edges (get_part cfg "base") (resolvedFillet cfg) = Option.none) := by
  have hwall : resolvedWall cfg = 9/5 := by
    simp only [resolvedWall]
    rw [if_pos hmin]
  have hfil : resolvedFillet cfg = 0 := by
    simp only [resolvedFillet]
    rw [if_pos hmin]
  refine ⟨hwall, hfil, fun r => ?_, fun h => ?_, fun h => ?_⟩
  · rw [hfil, apply_edges, if_neg (fun hc => absurd hc.2 (lt_irrefl 0))]
    split
    · simp
    · simp
  · rw [hfil, apply_edges, if_neg (fun hc => absurd hc.2 (lt_irrefl 0)), if_pos h]
  · rw [hfil, apply_edges, if_neg (fun hc => absurd hc.2 (lt_irrefl 0)), if_neg h]

/-- C6 amended, witness at the minimal-plus-chamfer configuration. -/
theorem minimal_style_edges_witness :
    resolvedBaseStyle minimalChamferConfig = "minimal" ∧
    (resolvedWall minimalChamferConfig = 9/5 ∧
     resolvedFillet minimalChamferConfig = 0 ∧
     (∀ r : ℚ, apply_edges (get_part minimalChamferConfig "base")
        (resolvedFillet minimalChamferConfig) ≠ some (.filletEdges r)) ∧
     (((get_part minimalChamferConfig "base").edge_style = "chamfer" ∧
         0 < (get_part minimalChamferConfig "base").chamfer_size) →
       apply_edges (get_part minimalChamferConfig "base")
          (resolvedFillet minimalChamferConfig)
         = some (.chamferEdges (get_part minimalChamferConfig "base").chamfer_size)) ∧
     (¬((get_part minimalChamferConfig "base").edge_style = "chamfer" ∧
         0 < (get_part minimalChamferConfig "base").chamfer_size) →
       apply_edges (get_part minimalChamferConfig "base")
          (resolvedFillet minimalChamferConfig) = Option.none)) :=
  ⟨rfl, minimal_style_edges minimalChamferConfig rfl⟩

/-! ## Claim C9 — the repository test scenario -/

/-- The combined bounding box of the repository test's two components:
x in [-14, 14], y in [-27.5, 27.5], z in [0, 12]. -/
lemma testComponents_bbox :
    compute_combined_bbox (testComponents.map (mkComponent zeroFn zeroFn)) =
      some (⟨-14, -55/2, 0⟩, ⟨14, 55/2, 12⟩) := by
  simp [testComponents, compute_combined_bbox, mkComponent, collectBboxes,
    specBboxMin, specBboxMax, specGroundZ, rotated_bbox, Option.bind,
    min_def, max_def]
  norm_num

/-- The test configuration resolves to the classic style. -/
lemma resolvedBaseStyle_testConfig : resolvedBaseStyle testConfig = "classic" := rfl

/-- The test configuration's effective wall thickness is 2.5 mm. -/
lemma resolvedWall_testConfig : resolvedWall testConfig = 5/2 := by
  simp only [resolvedWall]
  rw [if_neg (by decide : ¬(resolvedBaseStyle testConfig = "minimal")),
    show get_part testConfig "base" = {} from rfl,
    if_pos (by norm_num : ({} : PartConfig).wall_thickness ≠ 0)]

/-- C9 counterexample: on the repository test scenario the engine computes
inner (36, 63, 22) and outer (41, 68, 24.5); the claimed inner ≈ (36, 67, 21)
and outer ≈ (41, 72, 23.5) disagree on depth and height beyond any rounding
(the depth gap alone is 4 mm). -/
theorem scenario_dims_counterexample :
    (generate_from_manual_bbox zeroFn zeroFn testComponents testConfig true true).map
        (fun r => (r.dims.inner_w, r.dims.inner_d, r.dims.inner_h,
                   r.dims.outer_w, r.dims.outer_d, r.dims.outer_h))
      = some (36, 63, 22, 41, 68, 49/2) ∧
    ((63:ℚ) ≠ 67) ∧ ((63:ℚ) < 67 - 1/2) ∧ ((22:ℚ) ≠ 21) ∧ ((21:ℚ) + 1/2 < 22) ∧
    ((68:ℚ) ≠ 72) ∧ ((49/2:ℚ) ≠ 47/2) := by
  refine ⟨?_, by norm_num, by norm_num, by norm_num, by norm_num,
    by norm_num, by norm_num⟩
  simp only [generate_from_manual_bbox, testComponents_bbox, Option.map_some]
  rw [resolvedWall_testConfig]
  simp only [testConfig]
  norm_num

/-- C9 amended: the scenario yields inner (36, 63, 22), outer
(41, 68, 24.5), and a result containing both `base` and `lid` (together
with the 3MF variants when those exports succeed). -/
theorem scenario_dims_amended :
    (generate_from_manual_bbox zeroFn zeroFn testComponents testConfig true true).map
        (fun r => (r.dims.inner_w, r.dims.inner_d, r.dims.inner_h,
                   r.dims.outer_w, r.dims.outer_d, r.dims.outer_h, r.keys))
      = some (36, 63, 22, 41, 68, 49/2,
              ["base", "base_3mf", "lid", "lid_3mf"]) := by
  simp only [generate_from_manual_bbox, testComponents_bbox, Option.map_some]
  rw [resolvedWall_testConfig,
    show get_part testConfig "tray" = { enabled := false } from rfl,
    show get_part testConfig "bracket" = { enabled := false } from rfl]
  simp only [testConfig]
  norm_num
  exact fun h => nomatch h

/-! ## Pipeline helper lemmas -/

/-- Components built by `mkComponent` always carry their bounding boxes. -/
lemma collectBboxes_map (cosF sinF : ℚ → ℚ) (l : List CompSpec) :
    collectBboxes (l.map (mkComponent cosF sinF)) =
      some (l.map (fun s => (specBboxMin cosF sinF s, specBboxMax cosF sinF s))) := by
  induction l with
  | nil => rfl
  | cons s rest ih => simp [collectBboxes, mkComponent, ih, Option.bind]

/-- On a nonempty manual-bbox component list the aggregation step cannot
fail. -/
lemma compute_combined_bbox_specs_isSome (cosF sinF : ℚ → ℚ) (s : CompSpec)
    (rest : List CompSpec) :
    (compute_combined_bbox ((s :: rest).map (mkComponent cosF sinF))).isSome := by
  simp [compute_combined_bbox, mkComponent, collectBboxes_map, Option.bind]

/-- On a nonempty component list the manual-bbox pipeline returns a result. -/
lemma generate_specs_cons_isSome (cosF sinF : ℚ → ℚ) (s : CompSpec)
    (rest : List CompSpec) (cfg : EnclosureConfig) (tb tl : Bool) :
    (generate_from_manual_bbox cosF sinF (s :: rest) cfg tb tl).isSome := by
  obtain ⟨bb, hbb⟩ := Option.isSome_iff_exists.mp
    (compute_combined_bbox_specs_isSome cosF sinF s rest)
  simp only [List.map_cons] at hbb
  simp [generate_from_manual_bbox, hbb]

/-- A connector cutout is applied exactly when its profile resolves. -/
lemma apply_connector_cutout_isSome (c : ConnectorCutout) (inner_size : Vector3)
    (wall : ℚ) (ctr : Vector3) (oh : Option ℚ) :
    (apply_connector_cutout c inner_size wall ctr oh).isSome =
      (get_profile c.connector_type).isSome := by
  cases hgp : get_profile c.connector_type <;>
    simp [apply_connector_cutout, hgp]

/-- The applied connector cuts are exactly the resolvable cutouts, in
order. -/
lemma filterMap_connector_length (l : List ConnectorCutout) (inner_size : Vector3)
    (wall : ℚ) (ctr : Vector3) (oh : Option ℚ) :
    (l.filterMap (fun c => apply_connector_cutout c inner_size wall ctr oh)).length =
      (l.filter (fun c => (get_profile c.connector_type).isSome)).length := by
  induction l with
  | nil => rfl
  | cons c rest ih =>
    cases hgp : get_profile c.connector_type with
    | none =>
      have ha : apply_connector_cutout c inner_size wall ctr oh = Option.none := by
        simp [apply_connector_cutout, hgp]
      simp [List.filterMap_cons, List.filter_cons, ha, hgp, ih]
    | some p =>
      have ha : (apply_connector_cutout c inner_size wall ctr oh).isSome := by
        simp [apply_connector_cutout, hgp]
      obtain ⟨v, hv⟩ := Option.isSome_iff_exists.mp ha
      simp [List.filterMap_cons, List.filter_cons, hv, hgp, ih]

/-- Filtering drops at least the one element that fails the predicate. -/
lemma filter_length_lt {α : Type} (p : α → Bool) (l : List α) (c : α)
    (hc : c ∈ l) (hp : p c = false) :
    (l.filter p).length < l.length := by
  induction l with
  | nil => cases hc
  | cons a rest ih =>
    rcases List.mem_cons.mp hc with rfl | hmem
    · simp only [List.filter_cons, hp, Bool.false_eq_true, if_false]
      exact Nat.lt_succ_of_le (List.length_filter_le p rest)
    · cases hpa : p a
      · simp only [List.filter_cons, hpa, Bool.false_eq_true, if_false]
        exact Nat.lt_succ_of_lt (ih hmem)
      · simp only [List.filter_cons, hpa, if_true]
        exact Nat.succ_lt_succ (ih hmem)

/-! ## Claim C1 — fixed-shape dimension relations -/

/-- C1: in bounding-box mode the inner cavity equals the combined component
AABB extent plus twice the padding on each axis, and the outer size is the
inner size plus twice the effective wall thickness in X and Y and plus the
floor thickness in Z. -/
theorem fixed_shape_dims (cosF sinF : ℚ → ℚ) (specs : List CompSpec)
    (cfg : EnclosureConfig) (tb tl : Bool) (res : GenResult) (bmin bmax : Vector3)
    (hgen : generate_from_manual_bbox cosF sinF specs cfg tb tl = some res)
    (hbb : compute_combined_bbox (specs.map (mkComponent cosF sinF)) =
      some (bmin, bmax)) :
    res.wall = resolvedWall cfg ∧
    res.dims.inner_w = (bmax.x - bmin.x) + 2 * cfg.padding_x ∧
    res.dims.inner_d = (bmax.y - bmin.y) + 2 * cfg.padding_y ∧
    res.dims.inner_h = (bmax.z - bmin.z) + 2 * cfg.padding_z ∧
    res.dims.outer_w = res.dims.inner_w + 2 * res.wall ∧
    res.dims.outer_d = res.dims.inner_d + 2 * res.wall ∧
    res.dims.outer_h = res.dims.inner_h + cfg.floor_thickness := by
  simp only [generate_from_manual_bbox, hbb, Option.some.injEq] at hgen
  subst hgen
  refine ⟨rfl, ?_, ?_, ?_, ?_, ?_, ?_⟩ <;> simp <;> ring

/-- The combined bounding box of the single 10 × 20 × 5 component. -/
lemma spec1_bbox :
    compute_combined_bbox ([spec1].map (mkComponent zeroFn zeroFn)) =
      some (⟨-5, -10, 0⟩, ⟨5, 10, 5⟩) := by
  simp [spec1, compute_combined_bbox, mkComponent, collectBboxes, specBboxMin,
    specBboxMax, specGroundZ, rotated_bbox, Option.bind]
  norm_num

/-- C1 witness: the single-component run at the default configuration. -/
theorem fixed_shape_dims_witness :
    ∃ res, generate_from_manual_bbox zeroFn zeroFn [spec1] ({} : EnclosureConfig)
        true true = some res ∧
      (res.wall = resolvedWall {} ∧
       res.dims.inner_w = ((⟨5, 10, 5⟩ : Vector3).x - (⟨-5, -10, 0⟩ : Vector3).x)
         + 2 * ({} : EnclosureConfig).padding_x ∧
       res.dims.inner_d = ((⟨5, 10, 5⟩ : Vector3).y - (⟨-5, -10, 0⟩ : Vector3).y)
         + 2 * ({} : EnclosureConfig).padding_y ∧
       res.dims.inner_h = ((⟨5, 10, 5⟩ : Vector3).z - (⟨-5, -10, 0⟩ : Vector3).z)
         + 2 * ({} : EnclosureConfig).padding_z ∧
       res.dims.outer_w = res.dims.inner_w + 2 * res.wall ∧
       res.dims.outer_d = res.dims.inner_d + 2 * res.wall ∧
       res.dims.outer_h = res.dims.inner_h + ({} : EnclosureConfig).floor_thickness) := by
  obtain ⟨res, hres⟩ := Option.isSome_iff_exists.mp
    (generate_specs_cons_isSome zeroFn zeroFn spec1 [] {} true true)
  exact ⟨res, hres, fixed_shape_dims zeroFn zeroFn [spec1] {} true true res
    ⟨-5, -10, 0⟩ ⟨5, 10, 5⟩ hres spec1_bbox⟩

/-! ## Claim C7 — unknown connector types are skipped, not fatal -/

/-- C7: a cutout whose connector type has no catalog profile is skipped: the
run still returns a result whose keys contain `base` (and `lid` when a lid
style is enabled), and exactly the resolvable cutouts are applied — strictly
fewer cuts than requested cutouts. -/
theorem unknown_connector_skipped (cosF sinF : ℚ → ℚ) (specs : List CompSpec)
    (cfg : EnclosureConfig) (tb tl : Bool) (hne : specs ≠ [])
    (hunknown : ∃ c ∈ cfg.cutouts, get_profile c.connector_type = Option.none) :
    ∃ res, generate_from_manual_bbox cosF sinF specs cfg tb tl = some res ∧
      "base" ∈ res.keys ∧
      (cfg.lid_style ≠ LidStyle.none → "lid" ∈ res.keys) ∧
      res.connectorCuts.length =
        (cfg.cutouts.filter (fun c => (get_profile c.connector_type).isSome)).length ∧
      res.connectorCuts.length < cfg.cutouts.length := by
  match specs, hne with
  | s :: rest, _ =>
    obtain ⟨bb, hbb⟩ := Option.isSome_iff_exists.mp
      (compute_combined_bbox_specs_isSome cosF sinF s rest)
    simp only [List.map_cons] at hbb
    obtain ⟨res, hres⟩ := Option.isSome_iff_exists.mp
      (generate_specs_cons_isSome cosF sinF s rest cfg tb tl)
    refine ⟨res, hres, ?_, ?_, ?_, ?_⟩ <;>
      simp only [generate_from_manual_bbox, List.map_cons, hbb,
        Option.some.injEq] at hres <;>
      subst hres
    · simp
    · intro hlid
      simp [hlid]
    · exact filterMap_connector_length cfg.cutouts _ _ _ _
    · obtain ⟨c, hc, hcnone⟩ := hunknown
      rw [filterMap_connector_length]
      exact filter_length_lt _ cfg.cutouts c hc (by simp [hcnone])

/-- A connector cutout that does resolve (USB-A on the front face). -/
def usbACutout : ConnectorCutout := { connector_type := "usb_a", face := .front }

/-- A configuration requesting one unknown and one known connector cutout. -/
def c7Config : EnclosureConfig := { cutouts := [customConnCutout, usbACutout] }

/-- C7 witness: one unknown plus one known cutout on one component. -/
theorem unknown_connector_skipped_witness :
    ([spec1] : List CompSpec) ≠ [] ∧
    (∃ c ∈ c7Config.cutouts, get_profile c.connector_type = Option.none) ∧
    (∃ res, generate_from_manual_bbox zeroFn zeroFn [spec1] c7Config true true
        = some res ∧
      "base" ∈ res.keys ∧
      (c7Config.lid_style ≠ LidStyle.none → "lid" ∈ res.keys) ∧
      res.connectorCuts.length =
        (c7Config.cutouts.filter
          (fun c => (get_profile c.connector_type).isSome)).length ∧
      res.connectorCuts.length < c7Config.cutouts.length) :=
  ⟨by simp, ⟨customConnCutout, by simp [c7Config], rfl⟩,
   unknown_connector_skipped zeroFn zeroFn [spec1] c7Config true true (by simp)
     ⟨customConnCutout, by simp [c7Config], rfl⟩⟩

/-! ## Claim C10 — only the `components` field of the config changes -/

/-- C10: a normally-returning `generate_from_manual_bbox` run reassigns only
the `components` field of the passed config (to the Component list built
from the input specs); every other field keeps its value. -/
theorem manual_bbox_config_frame (cosF sinF : ℚ → ℚ) (specs : List CompSpec)
    (cfg : EnclosureConfig) (tb tl : Bool) (h : specs ≠ []) :
    (generate_from_manual_bbox cosF sinF specs cfg tb tl).map (fun r => r.config)
      = some { cfg with components := specs.map (mkComponent cosF sinF) } := by
  match specs, h with
  | s :: rest, _ =>
    obtain ⟨bb, hbb⟩ := Option.isSome_iff_exists.mp
      (compute_combined_bbox_specs_isSome cosF sinF s rest)
    simp only [List.map_cons] at hbb
    simp [generate_from_manual_bbox, hbb]

/-- C10 witness: the single-component run at the default configuration. -/
theorem manual_bbox_config_frame_witness :
    ([spec1] : List CompSpec) ≠ [] ∧
    (generate_from_manual_bbox zeroFn zeroFn [spec1] ({} : EnclosureConfig)
        true true).map (fun r => r.config)
      = some { ({} : EnclosureConfig) with
               components := [spec1].map (mkComponent zeroFn zeroFn) } :=
  ⟨by simp, manual_bbox_config_frame zeroFn zeroFn [spec1] {} true true (by simp)⟩

/-! ## Claim C8 — wrapper footprint area vs component union area -/

/-- Membership in a dilation: some point of the region is within `d`. -/
lemma mem_dilate {s : Set (ℝ × ℝ)} {d : ℝ} {x : ℝ × ℝ} :
    x ∈ dilate s d ↔ ∃ p ∈ s, dist x p ≤ d := by
  simp [dilate, Metric.mem_closedBall]

/-- A region is contained in its dilation by a nonnegative distance. -/
lemma self_subset_dilate (s : Set (ℝ × ℝ)) (d : ℝ) (hd : 0 ≤ d) :
    s ⊆ dilate s d :=
  fun _ hp => mem_dilate.mpr ⟨_, hp, by simp [hd]⟩

/-- Dilation is monotone in the region. -/
lemma dilate_mono {s t : Set (ℝ × ℝ)} (h : s ⊆ t) (d : ℝ) :
    dilate s d ⊆ dilate t d := by
  intro x hx
  obtain ⟨p, hp, hdist⟩ := mem_dilate.mp hx
  exact mem_dilate.mpr ⟨p, h hp, hdist⟩

/-- Erosion is monotone in the region. -/
lemma erode_mono {s t : Set (ℝ × ℝ)} (h : s ⊆ t) (d : ℝ) :
    erode s d ⊆ erode t d :=
  fun _ hq => Set.Subset.trans hq h

/-- The dilation of an axis-aligned rectangle stays in the grown rectangle. -/
lemma dilate_prod_Icc_subset (a b c d r : ℝ) :
    dilate (Set.Icc a b ×ˢ Set.Icc c d) r ⊆
      Set.Icc (a - r) (b + r) ×ˢ Set.Icc (c - r) (d + r) := by
  intro x hx
  obtain ⟨p, hp, hdist⟩ := mem_dilate.mp hx
  rw [Set.mem_prod, Set.mem_Icc, Set.mem_Icc] at hp
  have h1 : dist x.1 p.1 ≤ r :=
    le_trans (le_max_left _ _) (by rw [← Prod.dist_eq]; exact hdist)
  have h2 : dist x.2 p.2 ≤ r :=
    le_trans (le_max_right _ _) (by rw [← Prod.dist_eq]; exact hdist)
  rw [Real.dist_eq, abs_le] at h1 h2
  rw [Set.mem_prod, Set.mem_Icc, Set.mem_Icc]
  exact ⟨⟨by linarith [hp.1.1], by linarith [hp.1.2]⟩,
         ⟨by linarith [hp.2.1], by linarith [hp.2.2]⟩⟩

/-- Eroding a rectangle thinner than the erosion diameter empties it. -/
lemma erode_thin_empty (a b c d r : ℝ) (hr : 0 ≤ r) (h : d - c < 2 * r) :
    erode (Set.Icc a b ×ˢ Set.Icc c d) r = ∅ := by
  rw [Set.eq_empty_iff_forall_not_mem]
  intro q hq
  have hup : (q.1, q.2 + r) ∈ Metric.closedBall q r := by
    rw [Metric.mem_closedBall, Prod.dist_eq]
    simp [Real.dist_eq, abs_of_nonneg hr, hr]
  have hdown : (q.1, q.2 - r) ∈ Metric.closedBall q r := by
    rw [Metric.mem_closedBall, Prod.dist_eq]
    simp [Real.dist_eq, abs_of_nonneg hr, hr]
  have h1 := hq hup
  have h2 := hq hdown
  rw [Set.mem_prod, Set.mem_Icc, Set.mem_Icc] at h1 h2
  dsimp only at h1 h2
  linarith [h1.2.2, h2.2.1]

/-- The dilation of the empty region is empty. -/
lemma dilate_empty (d : ℝ) : dilate ∅ d = ∅ := by
  simp [dilate]

/-- The footprint of an unrotated component is its axis-aligned rectangle. -/
lemma component_footprint_unrotated (s : CompSpec) (h : s.rot_y = 0) :
    component_footprint s =
      Set.Icc ((s.x : ℝ) - (s.width : ℝ) / 2) ((s.x : ℝ) + (s.width : ℝ) / 2) ×ˢ
      Set.Icc ((s.y : ℝ) - (s.depth : ℝ) / 2) ((s.y : ℝ) + (s.depth : ℝ) / 2) := by
  ext q
  simp only [component_footprint, if_pos h, Set.mem_setOf_eq]
  constructor
  · rintro ⟨p, hp, h1, h2⟩
    rw [Set.mem_prod, Set.mem_Icc, Set.mem_Icc] at hp
    rw [Set.mem_prod, Set.mem_Icc, Set.mem_Icc]
    exact ⟨⟨by rw [h1]; linarith [hp.1.1], by rw [h1]; linarith [hp.1.2]⟩,
           ⟨by rw [h2]; linarith [hp.2.1], by rw [h2]; linarith [hp.2.2]⟩⟩
  · intro hq
    rw [Set.mem_prod, Set.mem_Icc, Set.mem_Icc] at hq
    refine ⟨(q.1 - (s.x : ℝ), q.2 - (s.y : ℝ)), ?_, by ring, by ring⟩
    rw [Set.mem_prod, Set.mem_Icc, Set.mem_Icc]
    exact ⟨⟨by linarith [hq.1.1], by linarith [hq.1.2]⟩,
           ⟨by linarith [hq.2.1], by linarith [hq.2.2]⟩⟩

/-- A thin 100 × 1 strip component. -/
def stripSpec : CompSpec := { name := "strip", width := 100, depth := 1, height := 10 }

/-- Zero padding, 1 mm wall, 5 mm fillet radius (all within the API
schema's bounds: padding ≥ 0, wall ∈ [1, 10], fillet ∈ [0, 5]). -/
def c8Config : EnclosureConfig :=
  { padding_x := 0, padding_y := 0, wall_thickness := 1, fillet_radius := 5 }

/-- The strip's footprint is the 100 × 1 rectangle about the origin. -/
lemma stripFootprint :
    component_footprint stripSpec =
      Set.Icc (-50 : ℝ) 50 ×ˢ Set.Icc (-(1 : ℝ) / 2) ((1 : ℝ) / 2) := by
  rw [component_footprint_unrotated stripSpec rfl]
  have h1 : ((stripSpec.x : ℝ) - (stripSpec.width : ℝ) / 2) = -50 := by
    norm_num [stripSpec]
  have h2 : ((stripSpec.x : ℝ) + (stripSpec.width : ℝ) / 2) = 50 := by
    norm_num [stripSpec]
  have h3 : ((stripSpec.y : ℝ) - (stripSpec.depth : ℝ) / 2) = -(1 : ℝ) / 2 := by
    norm_num [stripSpec]
  have h4 : ((stripSpec.y : ℝ) + (stripSpec.depth : ℝ) / 2) = (1 : ℝ) / 2 := by
    norm_num [stripSpec]
  rw [h1, h2, h3, h4]

/-- The union footprint of the single strip. -/
lemma stripUnionFootprint :
    unionFootprint [stripSpec] =
      Set.Icc (-50 : ℝ) 50 ×ˢ Set.Icc (-(1 : ℝ) / 2) ((1 : ℝ) / 2) := by
  rw [← stripFootprint]
  simp [unionFootprint]

/-- C8 counterexample: with zero padding, a 1 mm wall, and a 5 mm fillet
radius (all schema-legal), the erode-then-dilate rounding pass empties the
wrapper footprint of a thin 100 × 1 component, so the wrapper footprint
area (0) is strictly below the component union area (100). -/
theorem wrapper_area_counterexample :
    MeasureTheory.volume (wrapperOuterPoly [stripSpec] false c8Config)
      < MeasureTheory.volume (unionFootprint [stripSpec]) := by
  have hpad : ((max c8Config.padding_x c8Config.padding_y : ℚ) : ℝ) = 0 := by
    norm_num [c8Config]
  have hwallc : ((c8Config.wall_thickness : ℚ) : ℝ) = 1 := by
    norm_num [c8Config]
  have hfrc : ((c8Config.fillet_radius : ℚ) : ℝ) = 5 := by
    norm_num [c8Config]
  have hchain : dilate (dilate (unionFootprint [stripSpec]) 0) 1 ⊆
      Set.Icc ((-50 : ℝ) - 0 - 1) (50 + 0 + 1) ×ˢ
      Set.Icc ((-(1 : ℝ) / 2) - 0 - 1) ((1 : ℝ) / 2 + 0 + 1) := by
    rw [stripUnionFootprint]
    exact Set.Subset.trans
      (dilate_mono (dilate_prod_Icc_subset (-50) 50 (-(1 : ℝ) / 2) ((1 : ℝ) / 2) 0) 1)
      (dilate_prod_Icc_subset ((-50 : ℝ) - 0) (50 + 0) ((-(1 : ℝ) / 2) - 0)
        ((1 : ℝ) / 2 + 0) 1)
  have herode : erode (dilate (dilate (unionFootprint [stripSpec]) 0) 1) 5 = ∅ :=
    Set.subset_empty_iff.mp (Set.Subset.trans (erode_mono hchain 5)
      (le_of_eq (erode_thin_empty ((-50 : ℝ) - 0 - 1) (50 + 0 + 1)
        ((-(1 : ℝ) / 2) - 0 - 1) ((1 : ℝ) / 2 + 0 + 1) 5 (by norm_num)
        (by norm_num))))
  have houter : wrapperOuterPoly [stripSpec] false c8Config = ∅ := by
    simp only [wrapperOuterPoly, Bool.false_eq_true, if_false]
    rw [if_pos (by norm_num [c8Config] : (0 : ℚ) < c8Config.fillet_radius)]
    rw [hpad, hwallc, hfrc, herode, dilate_empty]
  rw [houter, stripUnionFootprint, MeasureTheory.measure_empty,
    MeasureTheory.Measure.volume_eq_prod, MeasureTheory.Measure.prod_prod,
    Real.volume_Icc, Real.volume_Icc]
  exact ENNReal.mul_pos (by simp [ENNReal.ofReal_pos])
    (by simp [ENNReal.ofReal_pos]; norm_num)

/-- C8 amended: whenever the fillet radius is at most
`max(padding_x, padding_y) + wall_thickness` (with nonnegative paddings and
wall), the wrapper footprint contains the union of component footprints, so
its area is at least the union's area.  The counterexample above shows the
bound is needed: a larger fillet radius can shrink the footprint below the
union, even to the empty region. -/
theorem wrapper_area_monotone (components_spec : List CompSpec)
    (disconnected : Bool) (cfg : EnclosureConfig)
    (hpx : 0 ≤ cfg.padding_x) (_hpy : 0 ≤ cfg.padding_y)
    (hw : 0 ≤ cfg.wall_thickness)
    (hr : cfg.fillet_radius ≤ max cfg.padding_x cfg.padding_y + cfg.wall_thickness) :
    MeasureTheory.volume (unionFootprint components_spec) ≤
      MeasureTheory.volume (wrapperOuterPoly components_spec disconnected cfg) := by
  apply MeasureTheory.measure_mono
  intro p hp
  have hpad0 : (0 : ℝ) ≤ ((max cfg.padding_x cfg.padding_y : ℚ) : ℝ) := by
    exact_mod_cast le_max_of_le_left hpx
  have hw0 : (0 : ℝ) ≤ ((cfg.wall_thickness : ℚ) : ℝ) := by exact_mod_cast hw
  have hhull : p ∈ (if disconnected then
      convexHull ℝ (unionFootprint components_spec)
      else unionFootprint components_spec) := by
    cases disconnected
    · simpa using hp
    · simpa using subset_convexHull ℝ _ hp
  simp only [wrapperOuterPoly]
  by_cases hrpos : (0 : ℚ) < cfg.fillet_radius
  · rw [if_pos hrpos]
    have hr0 : (0 : ℝ) ≤ ((cfg.fillet_radius : ℚ) : ℝ) := by
      exact_mod_cast le_of_lt hrpos
    have hrle : ((cfg.fillet_radius : ℚ) : ℝ) ≤
        ((max cfg.padding_x cfg.padding_y : ℚ) : ℝ) + ((cfg.wall_thickness : ℚ) : ℝ) := by
      exact_mod_cast hr
    set pad : ℝ := ((max cfg.padding_x cfg.padding_y : ℚ) : ℝ) with hpad_def
    set wall : ℝ := ((cfg.wall_thickness : ℚ) : ℝ) with hwall_def
    set r : ℝ := ((cfg.fillet_radius : ℚ) : ℝ) with hr_def
    have hrpos' : (0 : ℝ) < r := by rw [hr_def]; exact_mod_cast hrpos
    have hpw : (0 : ℝ) < pad + wall := lt_of_lt_of_le hrpos' hrle
    have hmem_erode : p ∈ erode (dilate (dilate (if disconnected then
        convexHull ℝ (unionFootprint components_spec)
        else unionFootprint components_spec) pad) wall) r := by
      intro x hx
      rw [Metric.mem_closedBall] at hx
      set c : ℝ := pad / (pad + wall) with hc_def
      have hc0 : (0 : ℝ) ≤ c := div_nonneg hpad0 hpw.le
      have hc1 : c ≤ 1 := by
        rw [hc_def, div_le_one hpw]; linarith
      have hdxp : dist x p ≤ pad + wall := le_trans hx hrle
      refine mem_dilate.mpr ⟨p + c • (x - p), mem_dilate.mpr ⟨p, hhull, ?_⟩, ?_⟩
      · rw [dist_eq_norm, add_sub_cancel_left, norm_smul, Real.norm_eq_abs,
          abs_of_nonneg hc0]
        calc c * ‖x - p‖ ≤ c * (pad + wall) := by
              apply mul_le_mul_of_nonneg_left _ hc0
              rw [← dist_eq_norm]; exact hdxp
          _ = pad := by rw [hc_def]; field_simp
      · have hv : x - (p + c • (x - p)) = (1 - c) • (x - p) := by
          rw [sub_smul, one_smul]; abel
        rw [dist_eq_norm, hv, norm_smul, Real.norm_eq_abs,
          abs_of_nonneg (by linarith : (0 : ℝ) ≤ 1 - c)]
        calc (1 - c) * ‖x - p‖ ≤ (1 - c) * (pad + wall) := by
              apply mul_le_mul_of_nonneg_left _ (by linarith : (0 : ℝ) ≤ 1 - c)
              rw [← dist_eq_norm]; exact hdxp
          _ = wall := by rw [hc_def]; field_simp
    exact self_subset_dilate _ r (le_of_lt hrpos') hmem_erode
  · rw [if_neg hrpos]
    exact self_subset_dilate _ _ hw0 (self_subset_dilate _ _ hpad0 hhull)

/-- C8 amended, witness: the default configuration (padding 3/3, wall 2.5,
fillet 1.5 ≤ 3 + 2.5) on the strip component. -/
theorem wrapper_area_monotone_witness :
    (0 : ℚ) ≤ ({} : EnclosureConfig).padding_x ∧
    (0 : ℚ) ≤ ({} : EnclosureConfig).padding_y ∧
    (0 : ℚ) ≤ ({} : EnclosureConfig).wall_thickness ∧
    ({} : EnclosureConfig).fillet_radius ≤
      max ({} : EnclosureConfig).padding_x ({} : EnclosureConfig).padding_y +
        ({} : EnclosureConfig).wall_thickness ∧
    MeasureTheory.volume (unionFootprint [stripSpec]) ≤
      MeasureTheory.volume (wrapperOuterPoly [stripSpec] false ({} : EnclosureConfig)) :=
  ⟨by norm_num, by norm_num, by norm_num, by norm_num [max_self],
   wrapper_area_monotone [stripSpec] false {} (by norm_num) (by norm_num)
     (by norm_num) (by norm_num [max_self])⟩

end ShellForge
